import Mathlib

/-!
Verification of the rectangle-vs-rectangle narrow-phase collision kernel of
the pygame physics module (src/pgShapeObject.c).

The kernel's own code (`_ClipTest`, `_SATFindCollisionProperty`,
`_RectShapeCollision`, `_RectShape_InitInternal`, `_RectShapeUpdateAABB`) is
embedded below, translated statement by statement from pgShapeObject.c.
Doubles are modelled as exact rationals; a rotation angle is modelled by the
pair of its cosine and sine, so that rigid rotations act on coordinates
exactly.  Helpers that live in other files of the repository (pgVector2,
pgAABBBox, pgCollision, pgBodyObject) are not in the sources given; each of
those is modelled from the specification and carries a doc comment saying so.
-/

/-- Modelled from the spec: the near-equality tolerance, chosen around 1e-9
for doubles (spec section 7).  pgHelpFunctions is not in src/. -/
def ZERO_EPSILON : ℚ := 1 / 1000000000

/-- The largest finite double, DBL_MAX, as an exact rational (the integer
(2^53 - 1) * 2^971 written out).  Used as the initial minimum in the
face-selection loop of `_SATFindCollisionProperty`. -/
def dblMax : ℚ := 179769313486231570814527423731704356798070567525844996598917476803157260780028538760589558632766878171540458953514382464234321326889464182768467546703537516986049910576551282076245490090389328944075868508455133942304583236903222948165808559332123348274797826204144723168738177180919299881250404026184124858368

/-- A 2D vector, stored as in pgVector2.h as a complex pair (real, imag). -/
structure PyVector2 where
  real : ℚ
  imag : ℚ
deriving DecidableEq

/-- Modelled from the spec: componentwise sum (c_sum of pgVector2, not in src/). -/
def c_sum (a b : PyVector2) : PyVector2 := ⟨a.real + b.real, a.imag + b.imag⟩

/-- Modelled from the spec: componentwise difference (c_diff of pgVector2, not in src/). -/
def c_diff (a b : PyVector2) : PyVector2 := ⟨a.real - b.real, a.imag - b.imag⟩

/-- Modelled from the spec: 2D dot product (PyVector2_Dot of pgVector2, not in src/). -/
def PyVector2_Dot (a b : PyVector2) : ℚ := a.real * b.real + a.imag * b.imag

/-- Modelled from the spec: the scalar z-component of the 3D cross product of
two planar vectors (PyVector2_Cross of pgVector2, not in src/). -/
def PyVector2_Cross (a b : PyVector2) : ℚ := a.real * b.imag - a.imag * b.real

/-- Modelled from the spec: the planar cross product of a scalar (a z-axis
vector) with a 2D vector (PyVector2_fCross of pgVector2, not in src/). -/
def PyVector2_fCross (s : ℚ) (v : PyVector2) : PyVector2 := ⟨-s * v.imag, s * v.real⟩

/-- A rotation angle, represented by its cosine and sine so the rigid action
on coordinates is exact rational arithmetic. -/
structure Rot2 where
  c : ℚ
  s : ℚ
deriving DecidableEq

/-- A genuine angle has cos^2 + sin^2 = 1. -/
def IsUnitRot (r : Rot2) : Prop := r.c ^ 2 + r.s ^ 2 = 1

instance (r : Rot2) : Decidable (IsUnitRot r) := by
  unfold IsUnitRot; infer_instance

/-- Modelled from the spec: rotate a vector by an angle
(PyVector2_Rotate of pgVector2, not in src/), the angle given by its
cosine and sine. -/
def PyVector2_Rotate (r : Rot2) (v : PyVector2) : PyVector2 :=
  ⟨r.c * v.real - r.s * v.imag, r.s * v.real + r.c * v.imag⟩

/-- The inverse rotation: same cosine, negated sine. -/
def Rot2.neg (r : Rot2) : Rot2 := ⟨r.c, -r.s⟩

/-- Modelled from the spec: near-equality of two doubles within the 1e-9
tolerance (PyMath_IsNearEqual of pgHelpFunctions, not in src/). -/
def PyMath_IsNearEqual (a b : ℚ) : Bool := decide (|a - b| < ZERO_EPSILON)

/-- Modelled from the spec: componentwise near-equality of two vectors
(PyVector2_Equal of pgVector2, not in src/). -/
def PyVector2_Equal (a b : PyVector2) : Bool :=
  PyMath_IsNearEqual a.real b.real && PyMath_IsNearEqual a.imag b.imag

/-- An axis-aligned box, as in pgAABBBox.h. -/
structure AABBBox where
  left : ℚ
  right : ℚ
  bottom : ℚ
  top : ℚ
deriving DecidableEq

/-- Modelled from the spec: construction of a box from its four extremes
(AABB_Gen of pgAABBBox, not in src/).  The given extremes are stored as is. -/
def AABB_Gen (l r b t : ℚ) : AABBBox := ⟨l, r, b, t⟩

/-- Modelled from the spec: reset a box to the empty box, ready to be expanded
point by point (AABB_Clear of pgAABBBox, not in src/). -/
def AABB_Clear : AABBBox := ⟨dblMax, -dblMax, dblMax, -dblMax⟩

/-- Modelled from the spec: expand a box to contain one more point
(AABB_ExpandTo of pgAABBBox, not in src/). -/
def AABB_ExpandTo (box : AABBBox) (p : PyVector2) : AABBBox :=
  ⟨min box.left p.real, max box.right p.real, min box.bottom p.imag, max box.top p.imag⟩

/-- Modelled from the spec: point-in-box test with tolerance
(AABB_IsIn of pgAABBBox, not in src/). -/
def AABB_IsIn (p : PyVector2) (box : AABBBox) (eps : ℚ) : Bool :=
  decide (box.left - eps ≤ p.real) && decide (p.real ≤ box.right + eps) &&
  decide (box.bottom - eps ≤ p.imag) && decide (p.imag ≤ box.top + eps)

/-- Shape kinds, as in pgShapeObject.h. -/
inductive ShapeType where
  | ST_RECT
  | ST_CIRCLE
deriving DecidableEq

/-- The base shape record of pgShapeObject.h: world AABB, rotational inertia,
and the shape kind tag. -/
structure PyShapeObject where
  box : AABBBox
  rInertia : ℚ
  type : ShapeType
deriving DecidableEq

/-- The rectangle shape record: the base record plus the four local-frame
corners. -/
structure PyRectShapeObject where
  shape : PyShapeObject
  bottomleft : PyVector2
  bottomright : PyVector2
  topright : PyVector2
  topleft : PyVector2
deriving DecidableEq

/-- The body record, restricted to the fields the kernel reads: world
position, rotation angle, mass, and the (rectangle) shape. -/
structure PyBodyObject where
  vecPosition : PyVector2
  fRotation : Rot2
  fMass : ℚ
  shape : PyRectShapeObject
deriving DecidableEq

/-- Modelled from the spec: transform a local point to world space
(PyBodyObject_GetGlobalPos of pgBodyObject, not in src/): rotate by the
body's angle, then translate by its position. -/
def PyBodyObject_GetGlobalPos (body : PyBodyObject) (p : PyVector2) : PyVector2 :=
  c_sum (PyVector2_Rotate body.fRotation p) body.vecPosition

/-- Modelled from the spec: body_to_body_local
(PyBodyObject_GetRelativePos of pgBodyObject, not in src/): apply the
source body's world transform, then the inverse of the target body's. -/
def PyBodyObject_GetRelativePos (target source : PyBodyObject) (p : PyVector2) : PyVector2 :=
  PyVector2_Rotate (Rot2.neg target.fRotation)
    (c_diff (PyBodyObject_GetGlobalPos source p) target.vecPosition)

/-- One step of the parametric interval update of Liang-Barsky clipping:
given the running (entering, leaving) parameter pair and one (p, q) edge
datum, reject, skip, or tighten the interval. -/
def lbUpdate (acc : Option (ℚ × ℚ)) (pq : ℚ × ℚ) : Option (ℚ × ℚ) :=
  match acc with
  | none => none
  | some (u1, u2) =>
    if pq.1 = 0 then (if pq.2 < 0 then none else some (u1, u2))
    else if pq.1 < 0 then some (max u1 (pq.2 / pq.1), u2)
    else some (u1, min u2 (pq.2 / pq.1))

/-- Modelled from the spec: Liang-Barsky clipping of the directed segment
p1 -> p2 against an axis-aligned box (Collision_LiangBarskey of
pgCollision.c, not in src/).  Returns none when the segment lies entirely
outside the box, otherwise the clipped pair of endpoints. -/
def Collision_LiangBarskey (box : AABBBox) (p1 p2 : PyVector2) :
    Option (PyVector2 × PyVector2) :=
  let dx := p2.real - p1.real
  let dy := p2.imag - p1.imag
  match lbUpdate (lbUpdate (lbUpdate (lbUpdate (some (0, 1))
      (-dx, p1.real - box.left)) (dx, box.right - p1.real))
      (-dy, p1.imag - box.bottom)) (dy, box.top - p1.imag) with
  | none => none
  | some (u1, u2) =>
    if u1 ≤ u2 then
      some (⟨p1.real + u1 * dx, p1.imag + u1 * dy⟩,
            ⟨p1.real + u2 * dx, p1.imag + u2 * dy⟩)
    else none

/-- The running state of the `_ClipTest` loop of pgShapeObject.c: the contact
buffer collected so far, the per-vertex inside flags, and the apart flag. -/
structure ClipState where
  contacts : List PyVector2
  hasIp : Fin 4 → Bool
  apart : Bool

/-- The initial `_ClipTest` state: empty buffer, no flags, apart. -/
def clipInit : ClipState := ⟨[], fun _ => false, true⟩

/-- One iteration of the `_ClipTest` loop (pgShapeObject.c lines 134-150):
clip the directed edge points[i] -> points[(i+1) % 4]; when it overlaps the
box, record each clipped endpoint, either as an inside-vertex flag (when it
equals the original vertex) or as a fresh contact. -/
def clipStep (box : AABBBox) (points : Fin 4 → PyVector2) (i : Fin 4)
    (st : ClipState) : ClipState :=
  let i1 : Fin 4 := i + 1
  match Collision_LiangBarskey box (points i) (points i1) with
  | none => st
  | some (pf, pt) =>
    let st1 : ClipState := { st with apart := false }
    let st2 : ClipState :=
      if PyVector2_Equal pf (points i) then
        { st1 with hasIp := Function.update st1.hasIp i true }
      else
        { st1 with contacts := st1.contacts ++ [pf] }
    if PyVector2_Equal pt (points i1) then
      { st2 with hasIp := Function.update st2.hasIp i1 true }
    else
      { st2 with contacts := st2.contacts ++ [pt] }

/-- The final pass of `_ClipTest` (lines 154-156): append, in index order,
every original vertex whose inside flag is set. -/
def flaggedPoints (points : Fin 4 → PyVector2) (h : Fin 4 → Bool) : List PyVector2 :=
  ((List.finRange 4).filter (fun i => h i)).map points

/-- The `_ClipTest` function of pgShapeObject.c (lines 124-159): clip the four
directed edges of the quadrilateral `points` against `box`; none when every
edge is apart from the box, otherwise the collected candidate contacts. -/
def ClipTest (box : AABBBox) (points : Fin 4 → PyVector2) : Option (List PyVector2) :=
  let st := clipStep box points 3 (clipStep box points 2
    (clipStep box points 1 (clipStep box points 0 clipInit)))
  if st.apart then none else some (st.contacts ++ flaggedPoints points st.hasIp)

/-- The four candidate collision faces of one body, as in pgCollision.h. -/
inductive CollisionFace where
  | CF_LEFT
  | CF_RIGHT
  | CF_BOTTOM
  | CF_TOP
deriving DecidableEq

open CollisionFace

/-- The coordinate of a contact on a face's normal axis: the x coordinate for
the left and right faces, the y coordinate for bottom and top. -/
def faceCoord (f : CollisionFace) (c : PyVector2) : ℚ :=
  match f with
  | CF_LEFT => c.real
  | CF_RIGHT => c.real
  | CF_BOTTOM => c.imag
  | CF_TOP => c.imag

/-- The coordinate of a box's face on that face's normal axis. -/
def boxFaceValue (f : CollisionFace) (b : AABBBox) : ℚ :=
  match f with
  | CF_LEFT => b.left
  | CF_RIGHT => b.right
  | CF_BOTTOM => b.bottom
  | CF_TOP => b.top

/-- The distance term one contact adds for one candidate face
(pgShapeObject.c lines 222-225). -/
def faceDist (f : CollisionFace) (b : AABBBox) (c : PyVector2) : ℚ :=
  match f with
  | CF_LEFT => |c.real - b.left|
  | CF_RIGHT => |b.right - c.real|
  | CF_BOTTOM => |c.imag - b.bottom|
  | CF_TOP => |b.top - c.imag|

/-- The summed distance of all candidate contacts to one candidate face:
the deps[] accumulation of pgShapeObject.c lines 219-226. -/
def faceSum (b : AABBBox) (cs : List PyVector2) (f : CollisionFace) : ℚ :=
  (cs.map (faceDist f b)).sum

/-- The outward normal of each face in the owning body's local frame
(pgShapeObject.c lines 251-276). -/
def faceNormal (f : CollisionFace) : PyVector2 :=
  match f with
  | CF_LEFT => ⟨-1, 0⟩
  | CF_RIGHT => ⟨1, 0⟩
  | CF_BOTTOM => ⟨0, -1⟩
  | CF_TOP => ⟨0, 1⟩

/-- One iteration of the minimum-selection loop of pgShapeObject.c lines
229-234: keep the running (face, value) pair unless this face's sum is
strictly smaller. -/
def selStep (b : AABBBox) (cs : List PyVector2) (st : CollisionFace × ℚ)
    (f : CollisionFace) : CollisionFace × ℚ :=
  if st.2 > faceSum b cs f then (f, faceSum b cs f) else st

/-- The face-selection loop of pgShapeObject.c lines 228-234: starting from
DBL_MAX, scan the faces in the order left, right, bottom, top and keep the
first face attaining the minimum summed distance.  (The C code leaves face_id
uninitialized before the loop; per spec section 9 it is taken to start at
CF_LEFT, which agrees with the C behaviour whenever some sum is below
DBL_MAX.) -/
def selectFace (b : AABBBox) (cs : List PyVector2) : CollisionFace × ℚ :=
  selStep b cs (selStep b cs (selStep b cs (selStep b cs
    (CF_LEFT, dblMax) CF_LEFT) CF_RIGHT) CF_BOTTOM) CF_TOP

/-- The inputs of `_SATFindCollisionProperty` (pgShapeObject.c lines 175-178):
the two bodies, their local boxes, and the candidate contacts in selfBody's
local frame. -/
structure SATArgs where
  selfBody : PyBodyObject
  incBody : PyBodyObject
  selfBox : AABBBox
  incBox : AABBBox
  contacts : List PyVector2
deriving DecidableEq

/-- The candidate contacts translated into incBody's local frame: the
conts[1] array of pgShapeObject.c lines 200-204. -/
def contsInc (a : SATArgs) : List PyVector2 :=
  a.contacts.map (fun c => PyBodyObject_GetRelativePos a.incBody a.selfBody c)

/-- Face selection with selfBody appointed reference (k = 0 of lines 217-235). -/
def selectSelf (a : SATArgs) : CollisionFace × ℚ :=
  selectFace a.selfBox a.contacts

/-- Face selection with incBody appointed reference (k = 1 of lines 217-235). -/
def selectInc (a : SATArgs) : CollisionFace × ℚ :=
  selectFace a.incBox (contsInc a)

/-- The choice of reference side, line 241: k = min_dep[0] < min_dep[1] ? 0 : 1.
True means k = 0, i.e. selfBody is the reference body. -/
def satK (a : SATArgs) : Bool :=
  decide ((selectSelf a).2 < (selectInc a).2)

/-- The reference body handed back through ans_ref (lines 241 and 311). -/
def satRefBody (a : SATArgs) : PyBodyObject :=
  if satK a then a.selfBody else a.incBody

/-- The incident body handed back through ans_inc (lines 241 and 312). -/
def satIncBody (a : SATArgs) : PyBodyObject :=
  if satK a then a.incBody else a.selfBody

/-- The reference body's local box, box[k] of line 205-206. -/
def satBox (a : SATArgs) : AABBBox :=
  if satK a then a.selfBox else a.incBox

/-- The candidate contacts in the reference body's local frame, conts[k]. -/
def satConts (a : SATArgs) : List PyVector2 :=
  if satK a then a.contacts else contsInc a

/-- The chosen collision face, face_id[k] of line 251. -/
def satFace (a : SATArgs) : CollisionFace :=
  if satK a then (selectSelf a).1 else (selectInc a).1

/-- The minimal penetration depth stored into the candidate, line 243. -/
def satMinDepth (a : SATArgs) : ℚ :=
  if satK a then (selectSelf a).2 else (selectInc a).2

/-- The contact filter of pgShapeObject.c lines 251-279: keep only the
contacts whose coordinate on the chosen face's normal axis is not
near-equal to the face's coordinate. -/
def satFiltered (a : SATArgs) : List PyVector2 :=
  (satConts a).filter
    (fun c => ! PyMath_IsNearEqual (faceCoord (satFace a) c)
                (boxFaceValue (satFace a) (satBox a)))

/-- The world-space collision normal, line 254/260/266/272 rotated at line
294 by the reference body's rotation. -/
def satNormal (a : SATArgs) : PyVector2 :=
  PyVector2_Rotate (satRefBody a).fRotation (faceNormal (satFace a))

/-- The surviving contacts transformed to world space, lines 297-298: rotate
by the reference body's rotation, then add its position. -/
def satWorldContacts (a : SATArgs) : List PyVector2 :=
  (satFiltered a).map
    (fun c => c_sum (PyVector2_Rotate (satRefBody a).fRotation c)
                (satRefBody a).vecPosition)

/-- The precomputed impulse denominator for one world-space contact, lines
300-308: 1/m_ref + 1/m_inc plus the two rotational terms. -/
def kFactorOf (a : SATArgs) (w : PyVector2) : ℚ :=
  let refR := c_diff w (satRefBody a).vecPosition
  let incidR := c_diff w (satIncBody a).vecPosition
  1 / (satRefBody a).fMass + 1 / (satIncBody a).fMass +
    PyVector2_Dot (PyVector2_fCross (PyVector2_Cross refR (satNormal a)) refR)
        (satNormal a) / (satRefBody a).shape.shape.rInertia +
    PyVector2_Dot (PyVector2_fCross (PyVector2_Cross incidR (satNormal a)) incidR)
        (satNormal a) / (satIncBody a).shape.shape.rInertia

/-- The kFactors array filled at line 308, one entry per surviving contact. -/
def satKFactors (a : SATArgs) : List ℚ :=
  (satWorldContacts a).map (kFactorOf a)

/-- The four corners of a rectangle shape in the cyclic order the kernel
uses everywhere: bottomleft, bottomright, topright, topleft. -/
def rectCorners (sh : PyRectShapeObject) : Fin 4 → PyVector2 :=
  fun i =>
    match i with
    | 0 => sh.bottomleft
    | 1 => sh.bottomright
    | 2 => sh.topright
    | 3 => sh.topleft

/-- The incident body's corners expressed in selfBody's local frame: the
p_in_self array of pgShapeObject.c lines 341-344. -/
def pInSelf (selfBody incBody : PyBodyObject) : Fin 4 → PyVector2 :=
  fun i => PyBodyObject_GetRelativePos selfBody incBody (rectCorners incBody.shape i)

/-- The local-frame box the entry point builds for a body, lines 352-355:
AABB_Gen applied to the bottomleft and topright corners only. -/
def localBox (sh : PyRectShapeObject) : AABBBox :=
  AABB_Gen sh.bottomleft.real sh.topright.real sh.bottomleft.imag sh.topright.imag

/-- The corner-addition pass of lines 359-366: append each of selfBody's own
local corners whose image in incBody's frame lies inside incBody's box
(tolerance 0), in the order bottomleft, bottomright, topright, topleft. -/
def cornerAdds (selfBody incBody : PyBodyObject) : List PyVector2 :=
  (List.finRange 4).filterMap (fun i =>
    if AABB_IsIn (PyBodyObject_GetRelativePos incBody selfBody
          (rectCorners selfBody.shape i)) (localBox incBody.shape) 0 then
      some (rectCorners selfBody.shape i)
    else none)

/-- The candidate contact list the entry point hands to
`_SATFindCollisionProperty`: the clip result plus the added corners; none
when `_ClipTest` reported the bodies apart (line 357). -/
def rectCandidates (selfBody incBody : PyBodyObject) : Option (List PyVector2) :=
  (ClipTest (localBox selfBody.shape) (pInSelf selfBody incBody)).map
    (fun cs => cs ++ cornerAdds selfBody incBody)

/-- Packaging of the `_SATFindCollisionProperty` arguments as the entry point
passes them at line 368. -/
def mkSATArgs (selfBody incBody : PyBodyObject) (cs : List PyVector2) : SATArgs :=
  ⟨selfBody, incBody, localBox selfBody.shape, localBox incBody.shape, cs⟩

/-- The SAT arguments as built for a full collision call: the candidate list
is the one `rectCandidates` produced (empty when the bodies were apart, in
which case no contact is emitted). -/
def collisionArgs (selfBody incBody : PyBodyObject) : SATArgs :=
  mkSATArgs selfBody incBody ((rectCandidates selfBody incBody).getD [])

/-- One contact record as appended to the caller's list, pgShapeObject.c
lines 376-389. -/
structure PyContact where
  pos : PyVector2
  normal : PyVector2
  refBody : PyBodyObject
  incBody : PyBodyObject
  weight : ℕ
  depth : ℚ
  kFactor : ℚ
deriving DecidableEq

/-- The emission loop of lines 374-390: one record per surviving contact,
stamped with the shared normal, the manifold size as weight, the minimal
depth, and the per-contact k-factor. -/
def emitContacts (a : SATArgs) : List PyContact :=
  ((satWorldContacts a).zip (satKFactors a)).map (fun pk =>
    ⟨pk.1, satNormal a, satRefBody a, satIncBody a,
      (satWorldContacts a).length, satMinDepth a, pk.2⟩)

/-- The `_RectShapeCollision` entry point of pgShapeObject.c lines 324-393:
returns the boolean result together with the list of contact records
appended to the caller's list during the call. -/
def RectShapeCollision (selfBody incBody : PyBodyObject) : Bool × List PyContact :=
  match rectCandidates selfBody incBody with
  | none => (false, [])
  | some cs => (true, emitContacts (mkSATArgs selfBody incBody cs))

/-- The `_RectShape_InitInternal` function of pgShapeObject.c lines 587-598:
set the four corners to the canonical axis-aligned rectangle of the given
width and height, then rotate each by the intrinsic angle seta. -/
def RectShape_InitInternal (sh : PyRectShapeObject) (width height : ℚ)
    (seta : Rot2) : PyRectShapeObject :=
  { sh with
    bottomleft := PyVector2_Rotate seta ⟨-width / 2, -height / 2⟩
    bottomright := PyVector2_Rotate seta ⟨width / 2, -height / 2⟩
    topright := PyVector2_Rotate seta ⟨width / 2, height / 2⟩
    topleft := PyVector2_Rotate seta ⟨-width / 2, height / 2⟩ }

/-- The `_RectShapeUpdateAABB` function of pgShapeObject.c lines 634-653:
when the body's shape is a rectangle, clear the shape's box and expand it
over the four world-space corner positions; otherwise do nothing. -/
def RectShapeUpdateAABB (body : PyBodyObject) : PyBodyObject :=
  if body.shape.shape.type = ShapeType.ST_RECT then
    let p := body.shape
    let gp := fun (i : Fin 4) => PyBodyObject_GetGlobalPos body (rectCorners p i)
    let newBox := AABB_ExpandTo (AABB_ExpandTo (AABB_ExpandTo
      (AABB_ExpandTo AABB_Clear (gp 0)) (gp 1)) (gp 2)) (gp 3)
    { body with shape := { p with shape := { p.shape with box := newBox } } }
  else body

/-- Follows the spec's words (refinement target for the box of lines 352-355):
the axis-aligned bounding box of the shape's four local corners. -/
def rectCornersAABB (sh : PyRectShapeObject) : AABBBox :=
  ⟨min (min sh.bottomleft.real sh.bottomright.real) (min sh.topright.real sh.topleft.real),
   max (max sh.bottomleft.real sh.bottomright.real) (max sh.topright.real sh.topleft.real),
   min (min sh.bottomleft.imag sh.bottomright.imag) (min sh.topright.imag sh.topleft.imag),
   max (max sh.bottomleft.imag sh.bottomright.imag) (max sh.topright.imag sh.topleft.imag)⟩

/-- The identity rotation angle (cos 0, sin 0). -/
def rot0 : Rot2 := ⟨1, 0⟩

/-- A base shape record with unit inertia used to build concrete rectangles. -/
def baseShape : PyShapeObject := ⟨⟨0, 0, 0, 0⟩, 1, ShapeType.ST_RECT⟩

/-- A blank rectangle record, to be initialized by `RectShape_InitInternal`. -/
def baseRect : PyRectShapeObject := ⟨baseShape, ⟨0, 0⟩, ⟨0, 0⟩, ⟨0, 0⟩, ⟨0, 0⟩⟩

/-- A 1 x 1 rectangle shape with no intrinsic rotation. -/
def unitSquare : PyRectShapeObject := RectShape_InitInternal baseRect 1 1 rot0

/-- A 10 x 10 rectangle shape with no intrinsic rotation. -/
def bigSquare : PyRectShapeObject := RectShape_InitInternal baseRect 10 10 rot0

/-- A body with the given position and mass, unrotated, carrying `sh`. -/
def mkBody (pos : PyVector2) (m : ℚ) (sh : PyRectShapeObject) : PyBodyObject :=
  ⟨pos, rot0, m, sh⟩

/-- A 1 x 1 unit-square body at the origin with mass 1. -/
def bodyA1 : PyBodyObject := mkBody ⟨0, 0⟩ 1 unitSquare

/-- A 1 x 1 unit-square body at (1, 1): it touches `bodyA1` exactly at the
corner (1/2, 1/2). -/
def bodyB1 : PyBodyObject := mkBody ⟨1, 1⟩ 1 unitSquare

/-- A 1 x 1 unit-square body at (10, 0), far away from the origin. -/
def bodySepB : PyBodyObject := mkBody ⟨10, 0⟩ 1 unitSquare

/-- A 10 x 10 body at the origin. -/
def bodyA3 : PyBodyObject := mkBody ⟨0, 0⟩ 1 bigSquare

/-- A 1 x 1 body at the origin, fully contained in `bodyA3`. -/
def bodyB3 : PyBodyObject := mkBody ⟨0, 0⟩ 1 unitSquare

lemma RectShapeCollision_some (selfBody incBody : PyBodyObject)
    (cs : List PyVector2) (h : rectCandidates selfBody incBody = some cs) :
    RectShapeCollision selfBody incBody
      = (true, emitContacts (mkSATArgs selfBody incBody cs)) := by
  unfold RectShapeCollision
  rw [h]

lemma RectShapeCollision_none (selfBody incBody : PyBodyObject)
    (h : rectCandidates selfBody incBody = none) :
    RectShapeCollision selfBody incBody = (false, []) := by
  unfold RectShapeCollision
  rw [h]

/-- The candidate list the clipping stage produces for the corner-touch pair
`bodyA1`, `bodyB1`: four copies of the touching corner. -/
def cs1 : List PyVector2 := [⟨1/2, 1/2⟩, ⟨1/2, 1/2⟩, ⟨1/2, 1/2⟩, ⟨1/2, 1/2⟩]

lemma rectCandidates_A1B1 : rectCandidates bodyA1 bodyB1 = some cs1 := by
  with_unfolding_all decide

lemma emit_A1B1 : emitContacts (mkSATArgs bodyA1 bodyB1 cs1) = [] := by
  with_unfolding_all decide

lemma rectCandidates_sep : rectCandidates bodyA1 bodySepB = none := by
  with_unfolding_all decide

/-- C1, counterexample: at the corner-touch configuration the call returns
true while appending no contact record at all (every candidate contact lies
on the chosen reference face and is filtered out), so the claimed
equivalence of the return value with at least one append is false. -/
theorem C1_counterexample :
    (RectShapeCollision bodyA1 bodyB1).1 = true ∧
    (RectShapeCollision bodyA1 bodyB1).2 = [] := by
  rw [RectShapeCollision_some bodyA1 bodyB1 cs1 rectCandidates_A1B1]
  exact ⟨rfl, emit_A1B1⟩

/-- C1, amended: `_RectShapeCollision` returns false only when no contact
record was appended during the call; equivalently, whenever at least one
contact is appended the call returned true.  (The converse fails: the call
can return true with zero contacts appended.) -/
theorem C1_false_means_empty (selfBody incBody : PyBodyObject)
    (h : (RectShapeCollision selfBody incBody).1 = false) :
    (RectShapeCollision selfBody incBody).2 = [] := by
  unfold RectShapeCollision at h ⊢
  cases hc : rectCandidates selfBody incBody with
  | none => rfl
  | some cs => rw [hc] at h; exact absurd h (by simp)

/-- Witness for C1: at a separated pair the call returns false, and the
theorem yields that nothing was appended. -/
theorem C1_false_means_empty_witness :
    (RectShapeCollision bodyA1 bodySepB).2 = [] :=
  C1_false_means_empty bodyA1 bodySepB
    (by rw [RectShapeCollision_none bodyA1 bodySepB rectCandidates_sep])

/-- The candidate list the clipping stage produces for the containment pair
`bodyA3`, `bodyB3`: the four corners of the small square. -/
def cs3 : List PyVector2 :=
  [⟨-(1/2), -(1/2)⟩, ⟨1/2, -(1/2)⟩, ⟨1/2, 1/2⟩, ⟨-(1/2), 1/2⟩]

lemma rectCandidates_A3B3 : rectCandidates bodyA3 bodyB3 = some cs3 := by
  with_unfolding_all decide

lemma rectCandidates_B3A3 : rectCandidates bodyB3 bodyA3 = none := by
  with_unfolding_all decide

/-- C3, counterexample: with the 1 x 1 square `bodyB3` fully contained in
the 10 x 10 square `bodyA3`, the call collide(A, B) returns true but the
swapped call collide(B, A) returns false, so the claimed symmetry of the
returned boolean is false. -/
theorem C3_counterexample :
    (RectShapeCollision bodyA3 bodyB3).1 = true ∧
    (RectShapeCollision bodyB3 bodyA3).1 = false := by
  constructor
  · rw [RectShapeCollision_some bodyA3 bodyB3 cs3 rectCandidates_A3B3]
  · rw [RectShapeCollision_none bodyB3 bodyA3 rectCandidates_B3A3]

/-- C3, amended: the boolean returned by `_RectShapeCollision` equals the
success of the clipping pass of the incident body's edges against the first
body's local box, which is not symmetric in the two bodies (under full
containment the two orders disagree). -/
theorem C3_return_eq_cliptest (selfBody incBody : PyBodyObject) :
    (RectShapeCollision selfBody incBody).1 =
      (ClipTest (localBox selfBody.shape) (pInSelf selfBody incBody)).isSome := by
  unfold RectShapeCollision rectCandidates
  cases hc : ClipTest (localBox selfBody.shape) (pInSelf selfBody incBody) <;>
    simp [hc]

/-- C6: for each surviving contact, the k-factor stored by the kernel equals
1/m_ref + 1/m_inc + ((r_ref x n) x r_ref) . n / I_ref
+ ((r_inc x n) x r_inc) . n / I_inc, where r_ref and r_inc are the
world-space contact position minus the reference and incident body
positions, n is the world-space normal, m the masses and I the inertias. -/
theorem C6_kfactor_formula (a : SATArgs) :
    satKFactors a = (satWorldContacts a).map (fun w =>
      1 / (satRefBody a).fMass + 1 / (satIncBody a).fMass +
      PyVector2_Dot (PyVector2_fCross
          (PyVector2_Cross (c_diff w (satRefBody a).vecPosition) (satNormal a))
          (c_diff w (satRefBody a).vecPosition)) (satNormal a)
        / (satRefBody a).shape.shape.rInertia +
      PyVector2_Dot (PyVector2_fCross
          (PyVector2_Cross (c_diff w (satIncBody a).vecPosition) (satNormal a))
          (c_diff w (satIncBody a).vecPosition)) (satNormal a)
        / (satIncBody a).shape.shape.rInertia) := rfl

/-- C9: after the contact filter, every contact still in the candidate
buffer has its coordinate on the chosen face's normal axis not near-equal
to that face's coordinate: it lies strictly off the reference face within
the tolerance. -/
theorem C9_filtered_off_face (a : SATArgs) (c : PyVector2)
    (hc : c ∈ satFiltered a) :
    PyMath_IsNearEqual (faceCoord (satFace a) c)
      (boxFaceValue (satFace a) (satBox a)) = false := by
  unfold satFiltered at hc
  have hp := List.of_mem_filter hc
  simpa using hp

/-- A 1 x 1 unit-square body at the origin, overlap partner of `bodyB7`. -/
def bodyA7 : PyBodyObject := mkBody ⟨0, 0⟩ 1 unitSquare

/-- A 1 x 1 unit-square body at (1/2, 0), overlapping `bodyA7`. -/
def bodyB7 : PyBodyObject := mkBody ⟨1/2, 0⟩ 1 unitSquare

/-- The SAT arguments the entry point builds for the overlapping pair
`bodyA7`, `bodyB7`. -/
def args7 : SATArgs := collisionArgs bodyA7 bodyB7

/-- The concrete candidate list the entry point builds for the pair
`bodyA7`, `bodyB7`: two clip points, two flagged vertices, two added
corners. -/
def cs7 : List PyVector2 :=
  [⟨1/2, -(1/2)⟩, ⟨1/2, 1/2⟩, ⟨0, -(1/2)⟩, ⟨0, 1/2⟩, ⟨1/2, -(1/2)⟩, ⟨1/2, 1/2⟩]

lemma rectCandidates_A7B7 : rectCandidates bodyA7 bodyB7 = some cs7 := by
  with_unfolding_all decide

lemma collisionArgs_A7B7 :
    collisionArgs bodyA7 bodyB7 = mkSATArgs bodyA7 bodyB7 cs7 := by
  unfold collisionArgs
  rw [rectCandidates_A7B7]
  rfl

lemma args7_eq : args7 = mkSATArgs bodyA7 bodyB7 cs7 := by
  unfold args7
  exact collisionArgs_A7B7

lemma satFiltered_A7B7 :
    satFiltered (mkSATArgs bodyA7 bodyB7 cs7) = [⟨0, -(1/2)⟩, ⟨0, 1/2⟩] := by
  with_unfolding_all decide

/-- Witness for C9 at a concrete surviving contact of the `args7` call. -/
theorem C9_filtered_off_face_witness :
    PyMath_IsNearEqual (faceCoord (satFace args7) ⟨0, -(1/2)⟩)
      (boxFaceValue (satFace args7) (satBox args7)) = false :=
  C9_filtered_off_face args7 ⟨0, -(1/2)⟩
    (by rw [args7_eq, satFiltered_A7B7]; exact List.mem_cons_self _ _)

/-- A rectangle record whose base shape is tagged as a circle. -/
def circleTagged : PyRectShapeObject :=
  ⟨⟨⟨0, 0, 0, 0⟩, 1, ShapeType.ST_CIRCLE⟩, ⟨0, 0⟩, ⟨0, 0⟩, ⟨0, 0⟩, ⟨0, 0⟩⟩

/-- A body carrying the circle-tagged shape. -/
def circleBody : PyBodyObject := ⟨⟨0, 0⟩, rot0, 1, circleTagged⟩

/-- C10: for every body whose shape type field is not ST_RECT, the AABB
update operation performs no update at all: the body, its shape box
included, is returned unchanged. -/
theorem C10_update_noop (body : PyBodyObject)
    (h : body.shape.shape.type ≠ ShapeType.ST_RECT) :
    RectShapeUpdateAABB body = body := by
  unfold RectShapeUpdateAABB
  rw [if_neg h]

/-- Witness for C10 at a concrete circle-tagged body. -/
theorem C10_update_noop_witness : RectShapeUpdateAABB circleBody = circleBody :=
  C10_update_noop circleBody (by with_unfolding_all decide)

lemma selStep_snd_le (b : AABBBox) (cs : List PyVector2) (st : CollisionFace × ℚ)
    (f : CollisionFace) : (selStep b cs st f).2 ≤ st.2 := by
  unfold selStep
  split_ifs with hlt
  · exact le_of_lt hlt
  · exact le_refl _

lemma selStep_snd_le_sum (b : AABBBox) (cs : List PyVector2) (st : CollisionFace × ℚ)
    (f : CollisionFace) : (selStep b cs st f).2 ≤ faceSum b cs f := by
  unfold selStep
  split_ifs with hlt
  · exact le_refl _
  · exact le_of_not_lt hlt

lemma selStep_attained (b : AABBBox) (cs : List PyVector2) (st : CollisionFace × ℚ)
    (f : CollisionFace) (h : st.2 = faceSum b cs st.1) :
    (selStep b cs st f).2 = faceSum b cs (selStep b cs st f).1 := by
  unfold selStep
  split_ifs with hlt
  · rfl
  · exact h

lemma selectFace_spec (b : AABBBox) (cs : List PyVector2)
    (h : faceSum b cs CF_LEFT < dblMax) :
    (∀ f, (selectFace b cs).2 ≤ faceSum b cs f) ∧
    (selectFace b cs).2 = faceSum b cs (selectFace b cs).1 := by
  have h1 : selStep b cs (CF_LEFT, dblMax) CF_LEFT = (CF_LEFT, faceSum b cs CF_LEFT) := by
    unfold selStep
    rw [if_pos]
    exact h
  constructor
  · intro f
    cases f
    case CF_LEFT =>
      calc (selectFace b cs).2
          ≤ (selStep b cs (selStep b cs (selStep b cs (CF_LEFT, dblMax) CF_LEFT)
              CF_RIGHT) CF_BOTTOM).2 := selStep_snd_le b cs _ CF_TOP
        _ ≤ (selStep b cs (selStep b cs (CF_LEFT, dblMax) CF_LEFT) CF_RIGHT).2 :=
            selStep_snd_le b cs _ CF_BOTTOM
        _ ≤ (selStep b cs (CF_LEFT, dblMax) CF_LEFT).2 := selStep_snd_le b cs _ CF_RIGHT
        _ ≤ faceSum b cs CF_LEFT := by rw [h1]
    case CF_RIGHT =>
      calc (selectFace b cs).2
          ≤ (selStep b cs (selStep b cs (selStep b cs (CF_LEFT, dblMax) CF_LEFT)
              CF_RIGHT) CF_BOTTOM).2 := selStep_snd_le b cs _ CF_TOP
        _ ≤ (selStep b cs (selStep b cs (CF_LEFT, dblMax) CF_LEFT) CF_RIGHT).2 :=
            selStep_snd_le b cs _ CF_BOTTOM
        _ ≤ faceSum b cs CF_RIGHT := selStep_snd_le_sum b cs _ CF_RIGHT
    case CF_BOTTOM =>
      calc (selectFace b cs).2
          ≤ (selStep b cs (selStep b cs (selStep b cs (CF_LEFT, dblMax) CF_LEFT)
              CF_RIGHT) CF_BOTTOM).2 := selStep_snd_le b cs _ CF_TOP
        _ ≤ faceSum b cs CF_BOTTOM := selStep_snd_le_sum b cs _ CF_BOTTOM
    case CF_TOP => exact selStep_snd_le_sum b cs _ CF_TOP
  · apply selStep_attained
    apply selStep_attained
    apply selStep_attained
    rw [h1]

/-- A 1 x 1 square body at the origin with mass 1; its twin `bodyB2` sits at
the same position, so the two face-distance minima tie exactly. -/
def bodyA2 : PyBodyObject := mkBody ⟨0, 0⟩ 1 unitSquare

/-- A 1 x 1 square body at the origin with mass 2 (the mass only serves to
tell the two bodies apart as records). -/
def bodyB2 : PyBodyObject := mkBody ⟨0, 0⟩ 2 unitSquare

/-- The SAT arguments the entry point builds for the exactly tied pair. -/
def args2 : SATArgs := collisionArgs bodyA2 bodyB2

/-- The concrete candidate list for the tied pair: the four shared corners,
each contributed twice (once flagged by the clipping pass, once by the
corner-addition pass). -/
def cs2 : List PyVector2 :=
  [⟨-(1/2), -(1/2)⟩, ⟨1/2, -(1/2)⟩, ⟨1/2, 1/2⟩, ⟨-(1/2), 1/2⟩,
   ⟨-(1/2), -(1/2)⟩, ⟨1/2, -(1/2)⟩, ⟨1/2, 1/2⟩, ⟨-(1/2), 1/2⟩]

lemma rectCandidates_A2B2 : rectCandidates bodyA2 bodyB2 = some cs2 := by
  with_unfolding_all decide

lemma args2_eq : args2 = mkSATArgs bodyA2 bodyB2 cs2 := by
  unfold args2 collisionArgs
  rw [rectCandidates_A2B2]
  rfl

lemma selectSelf_A2B2 :
    selectSelf (mkSATArgs bodyA2 bodyB2 cs2) = (CF_LEFT, 4) := by
  with_unfolding_all decide

lemma selectInc_A2B2 :
    selectInc (mkSATArgs bodyA2 bodyB2 cs2) = (CF_LEFT, 4) := by
  with_unfolding_all decide

/-- C2, counterexample: with two identical unit squares at the same
position the two minimum face-distance sums are exactly equal, yet the
reference body chosen is the incident body (the second argument), not body
A as the claim states. -/
theorem C2_counterexample :
    (selectSelf args2).2 = (selectInc args2).2 ∧
    satRefBody args2 = args2.incBody ∧
    args2.incBody ≠ args2.selfBody := by
  refine ⟨?_, ?_, ?_⟩
  · rw [args2_eq, selectSelf_A2B2, selectInc_A2B2]
  · rw [args2_eq]
    unfold satRefBody satK
    rw [selectSelf_A2B2, selectInc_A2B2]
    simp
  · rw [args2_eq]
    with_unfolding_all decide

/-- C2, amended: the minimum-selection loop does compute, for each body, the
minimum of its four face-distance sums (attained at the selected face), and
the body with the strictly smaller minimum becomes the reference body; but
on an exact tie the incident body (body B, the second argument) is chosen,
not body A. -/
theorem C2_reference_choice (a : SATArgs)
    (h0 : faceSum a.selfBox a.contacts CF_LEFT < dblMax)
    (h1 : faceSum a.incBox (contsInc a) CF_LEFT < dblMax) :
    (∀ f, (selectSelf a).2 ≤ faceSum a.selfBox a.contacts f) ∧
    (∀ f, (selectInc a).2 ≤ faceSum a.incBox (contsInc a) f) ∧
    (selectSelf a).2 = faceSum a.selfBox a.contacts (selectSelf a).1 ∧
    (selectInc a).2 = faceSum a.incBox (contsInc a) (selectInc a).1 ∧
    satRefBody a = (if (selectSelf a).2 < (selectInc a).2
      then a.selfBody else a.incBody) ∧
    satIncBody a = (if (selectSelf a).2 < (selectInc a).2
      then a.incBody else a.selfBody) := by
  have hs0 := selectFace_spec a.selfBox a.contacts h0
  have hs1 := selectFace_spec a.incBox (contsInc a) h1
  refine ⟨hs0.1, hs1.1, hs0.2, hs1.2, ?_, ?_⟩
  · unfold satRefBody satK
    by_cases hlt : (selectSelf a).2 < (selectInc a).2 <;> simp [hlt, selectSelf, selectInc]
  · unfold satIncBody satK
    by_cases hlt : (selectSelf a).2 < (selectInc a).2 <;> simp [hlt, selectSelf, selectInc]

/-- Witness for C2 at the tied pair: the selected value is the attained
minimum and the reference choice follows the strict comparison. -/
theorem C2_reference_choice_witness :
    (selectSelf args2).2 ≤ faceSum args2.selfBox args2.contacts CF_RIGHT ∧
    (selectSelf args2).2 = faceSum args2.selfBox args2.contacts (selectSelf args2).1 ∧
    satRefBody args2 = (if (selectSelf args2).2 < (selectInc args2).2
      then args2.selfBody else args2.incBody) ∧
    satIncBody args2 = (if (selectSelf args2).2 < (selectInc args2).2
      then args2.incBody else args2.selfBody) := by
  have h := C2_reference_choice args2
    (by rw [args2_eq]; with_unfolding_all decide)
    (by rw [args2_eq]; with_unfolding_all decide)
  exact ⟨h.1 CF_RIGHT, h.2.2.1, h.2.2.2.2.1, h.2.2.2.2.2⟩

lemma rotate_rot0 (v : PyVector2) : PyVector2_Rotate rot0 v = v := by
  cases v with
  | mk x y =>
    unfold PyVector2_Rotate rot0
    simp only [PyVector2.mk.injEq]
    constructor <;> ring

/-- The 90-degree rotation angle (cos 0, sin 1). -/
def rot90 : Rot2 := ⟨0, 1⟩

/-- A 2 x 2 rectangle shape with an intrinsic 90-degree rotation. -/
def rotRect : PyRectShapeObject := RectShape_InitInternal baseRect 2 2 rot90

/-- C4, counterexample: for the 2 x 2 rectangle built with intrinsic
rotation 90 degrees (a rigid rotation of the canonical rectangle), the
local-frame box the narrow-phase entry point builds is not the bounding box
of the four corners, and its left bound exceeds its right bound. -/
theorem C4_counterexample :
    localBox rotRect ≠ rectCornersAABB rotRect ∧
    ¬ (localBox rotRect).left ≤ (localBox rotRect).right := by
  with_unfolding_all decide

/-- C4, amended: the entry point builds the local box from the bottomleft
and topright corners only; for a shape whose intrinsic rotation is the
identity and whose width and height are nonnegative this box is exactly the
axis-aligned bounding box of the four local corners and satisfies
left <= right and bottom <= top, but for a rotated shape it need not be. -/
theorem C4_local_box (sh : PyRectShapeObject) (w h : ℚ) (hw : 0 ≤ w) (hh : 0 ≤ h) :
    localBox (RectShape_InitInternal sh w h rot0)
      = rectCornersAABB (RectShape_InitInternal sh w h rot0) ∧
    (localBox (RectShape_InitInternal sh w h rot0)).left
      ≤ (localBox (RectShape_InitInternal sh w h rot0)).right ∧
    (localBox (RectShape_InitInternal sh w h rot0)).bottom
      ≤ (localBox (RectShape_InitInternal sh w h rot0)).top := by
  have hw2 : -w / 2 ≤ w / 2 := by linarith
  have hh2 : -h / 2 ≤ h / 2 := by linarith
  unfold localBox RectShape_InitInternal rectCornersAABB AABB_Gen
  simp only [rotate_rot0]
  refine ⟨?_, hw2, hh2⟩
  simp only [AABBBox.mk.injEq]
  refine ⟨?_, ?_, ?_, ?_⟩
  · rw [min_eq_left hw2, min_eq_right hw2, min_self]
  · rw [max_eq_right hw2, max_eq_left hw2, max_self]
  · rw [min_self, min_self, min_eq_left hh2]
  · rw [max_self, max_self, max_eq_right hh2]

/-- Witness for C4 at a concrete 2 x 1 unrotated rectangle. -/
theorem C4_local_box_witness :
    localBox (RectShape_InitInternal baseRect 2 1 rot0)
      = rectCornersAABB (RectShape_InitInternal baseRect 2 1 rot0) ∧
    (localBox (RectShape_InitInternal baseRect 2 1 rot0)).left
      ≤ (localBox (RectShape_InitInternal baseRect 2 1 rot0)).right ∧
    (localBox (RectShape_InitInternal baseRect 2 1 rot0)).bottom
      ≤ (localBox (RectShape_InitInternal baseRect 2 1 rot0)).top :=
  C4_local_box baseRect 2 1 (by norm_num) (by norm_num)

lemma dot_rotate_self (r : Rot2) (v : PyVector2) :
    PyVector2_Dot (PyVector2_Rotate r v) (PyVector2_Rotate r v)
      = (r.c ^ 2 + r.s ^ 2) * PyVector2_Dot v v := by
  cases r with
  | mk c s =>
    cases v with
    | mk x y =>
      unfold PyVector2_Dot PyVector2_Rotate
      dsimp
      ring

lemma dot_faceNormal_self (f : CollisionFace) :
    PyVector2_Dot (faceNormal f) (faceNormal f) = 1 := by
  cases f <;> · unfold PyVector2_Dot faceNormal; dsimp; norm_num

lemma mem_collision_normal (selfBody incBody : PyBodyObject) (ct : PyContact)
    (hct : ct ∈ (RectShapeCollision selfBody incBody).2) :
    ct.normal = satNormal (collisionArgs selfBody incBody) := by
  unfold RectShapeCollision at hct
  cases hc : rectCandidates selfBody incBody with
  | none => rw [hc] at hct; simp at hct
  | some cs =>
    rw [hc] at hct
    have hargs : collisionArgs selfBody incBody = mkSATArgs selfBody incBody cs := by
      unfold collisionArgs
      rw [hc]
      rfl
    dsimp at hct
    unfold emitContacts at hct
    rw [List.mem_map] at hct
    obtain ⟨pk, hpk, hback⟩ := hct
    rw [hargs, ← hback]

/-- C7: whenever a collision is reported, each emitted contact's normal is
the rotation, by the reference body's rotation angle, of the chosen face's
outward local axis (-x, +x, -y or +y for left, right, bottom, top), and
consequently has unit length (stated as unit squared norm). -/
theorem C7_world_normal (selfBody incBody : PyBodyObject)
    (hu : IsUnitRot (satRefBody (collisionArgs selfBody incBody)).fRotation) :
    ∀ ct ∈ (RectShapeCollision selfBody incBody).2,
      ct.normal = PyVector2_Rotate (satRefBody (collisionArgs selfBody incBody)).fRotation
        (faceNormal (satFace (collisionArgs selfBody incBody))) ∧
      PyVector2_Dot ct.normal ct.normal = 1 := by
  intro ct hct
  have hn := mem_collision_normal selfBody incBody ct hct
  constructor
  · rw [hn]; rfl
  · rw [hn]
    unfold satNormal
    rw [dot_rotate_self, dot_faceNormal_self, mul_one]
    exact hu

/-- The first contact record emitted for the pair `bodyA7`, `bodyB7`. -/
def contact7 : PyContact := ⟨⟨0, -(1/2)⟩, ⟨1, 0⟩, bodyA7, bodyB7, 2, 1, 5/2⟩

/-- The second contact record emitted for the pair `bodyA7`, `bodyB7`. -/
def contact7b : PyContact := ⟨⟨0, 1/2⟩, ⟨1, 0⟩, bodyA7, bodyB7, 2, 1, 5/2⟩

lemma satRefBody_A7B7 : satRefBody (mkSATArgs bodyA7 bodyB7 cs7) = bodyA7 := by
  with_unfolding_all decide

lemma emit_A7B7 :
    emitContacts (mkSATArgs bodyA7 bodyB7 cs7) = [contact7, contact7b] := by
  with_unfolding_all decide

/-- Witness for C7 at a concrete emitted contact. -/
theorem C7_world_normal_witness :
    contact7.normal = PyVector2_Rotate (satRefBody (collisionArgs bodyA7 bodyB7)).fRotation
      (faceNormal (satFace (collisionArgs bodyA7 bodyB7))) ∧
    PyVector2_Dot contact7.normal contact7.normal = 1 :=
  C7_world_normal bodyA7 bodyB7
    (by rw [collisionArgs_A7B7, satRefBody_A7B7]; with_unfolding_all decide)
    contact7
    (by rw [RectShapeCollision_some bodyA7 bodyB7 cs7 rectCandidates_A7B7,
          emit_A7B7]
        exact List.mem_cons_self _ _)

/-- A 10 x 10 body at the origin with mass 1 and inertia 1. -/
def bodyA5 : PyBodyObject := mkBody ⟨0, 0⟩ 1 bigSquare

/-- A 1 x 1 body at (-2/5, 0), fully contained in `bodyA5`, mass 1,
inertia 1. -/
def bodyB5 : PyBodyObject := mkBody ⟨-(2/5), 0⟩ 1 unitSquare

/-- The candidate list for the failing pair: the four corners of the small
square expressed in the big square's frame. -/
def cs5 : List PyVector2 :=
  [⟨-(9/10), -(1/2)⟩, ⟨1/10, -(1/2)⟩, ⟨1/10, 1/2⟩, ⟨-(9/10), 1/2⟩]

/-- The first contact record emitted for the pair `bodyA5`, `bodyB5`. -/
def contact5 : PyContact := ⟨⟨1/10, -(1/2)⟩, ⟨-1, 0⟩, bodyB5, bodyA5, 2, 2, 5/2⟩

/-- The second contact record emitted for the pair `bodyA5`, `bodyB5`. -/
def contact5b : PyContact := ⟨⟨1/10, 1/2⟩, ⟨-1, 0⟩, bodyB5, bodyA5, 2, 2, 5/2⟩

lemma rectCandidates_A5B5 : rectCandidates bodyA5 bodyB5 = some cs5 := by
  with_unfolding_all decide

lemma emit_A5B5 :
    emitContacts (mkSATArgs bodyA5 bodyB5 cs5) = [contact5, contact5b] := by
  with_unfolding_all decide

/-- C5: evaluation of the kernel at the failing input.  The call reports a
collision and emits two contacts, and for every emitted contact the normal
satisfies (p_inc - p_ref) . n = -2/5 < 0, violating the claimed orientation
(p_inc - p_ref) . n > 0 far beyond any 1e-9 tolerance. -/
theorem C5_orientation_failure :
    (RectShapeCollision bodyA5 bodyB5).1 = true ∧
    (RectShapeCollision bodyA5 bodyB5).2.length = 2 ∧
    (RectShapeCollision bodyA5 bodyB5).2.all (fun ct =>
      decide (PyVector2_Dot (c_diff ct.incBody.vecPosition ct.refBody.vecPosition)
        ct.normal < 0)) = true := by
  rw [RectShapeCollision_some bodyA5 bodyB5 cs5 rectCandidates_A5B5, emit_A5B5]
  refine ⟨rfl, rfl, ?_⟩
  with_unfolding_all decide

lemma clipStep_contacts_le (box : AABBBox) (points : Fin 4 → PyVector2)
    (i : Fin 4) (st : ClipState) :
    (clipStep box points i st).contacts.length ≤ st.contacts.length + 2 := by
  unfold clipStep
  cases hlb : Collision_LiangBarskey box (points i) (points (i + 1)) with
  | none => simp only [hlb]; omega
  | some pr =>
    obtain ⟨pf, pt⟩ := pr
    simp only [hlb]
    split_ifs <;> simp [List.length_append]

lemma flaggedPoints_le (points : Fin 4 → PyVector2) (hip : Fin 4 → Bool) :
    (flaggedPoints points hip).length ≤ 4 := by
  unfold flaggedPoints
  rw [List.length_map]
  have hfl := List.length_filter_le (fun i => hip i) (List.finRange 4)
  simpa using hfl

lemma ClipTest_length_le (box : AABBBox) (points : Fin 4 → PyVector2)
    (cs : List PyVector2) (h : ClipTest box points = some cs) :
    cs.length ≤ 12 := by
  unfold ClipTest at h
  dsimp only at h
  split_ifs at h with ha
  case _ =>
    have hl := Option.some.inj h
    have l0 := clipStep_contacts_le box points 0 clipInit
    have l1 := clipStep_contacts_le box points 1 (clipStep box points 0 clipInit)
    have l2 := clipStep_contacts_le box points 2
      (clipStep box points 1 (clipStep box points 0 clipInit))
    have l3 := clipStep_contacts_le box points 3 (clipStep box points 2
      (clipStep box points 1 (clipStep box points 0 clipInit)))
    have lf := flaggedPoints_le points (clipStep box points 3 (clipStep box points 2
      (clipStep box points 1 (clipStep box points 0 clipInit)))).hasIp
    have hinit : clipInit.contacts.length = 0 := rfl
    rw [← hl, List.length_append]
    omega

lemma cornerAdds_le (selfBody incBody : PyBodyObject) :
    (cornerAdds selfBody incBody).length ≤ 4 := by
  unfold cornerAdds
  have hfm := List.length_filterMap_le (fun i =>
    if AABB_IsIn (PyBodyObject_GetRelativePos incBody selfBody
          (rectCorners selfBody.shape i)) (localBox incBody.shape) 0 then
      some (rectCorners selfBody.shape i)
    else none) (List.finRange 4)
  simpa using hfm

lemma satConts_length (a : SATArgs) : (satConts a).length = a.contacts.length := by
  unfold satConts
  split_ifs
  · rfl
  · unfold contsInc
    rw [List.length_map]

lemma satFiltered_le (a : SATArgs) : (satFiltered a).length ≤ a.contacts.length := by
  calc (satFiltered a).length ≤ (satConts a).length := List.length_filter_le _ _
    _ = a.contacts.length := satConts_length a

/-- C8: the candidate buffer never exceeds 16 entries.  The clipping pass
produces at most 12 points (at most 2 clip points per edge over the four
edges, plus the at most 4 flagged original vertices), the entry point adds
at most 4 corners, and the filtering step only shrinks the list, so every
write into the 16-slot contacts and kFactors arrays is in bounds. -/
theorem C8_buffer_bound (selfBody incBody : PyBodyObject) (cs : List PyVector2)
    (h : rectCandidates selfBody incBody = some cs) :
    (∃ cs0, ClipTest (localBox selfBody.shape) (pInSelf selfBody incBody) = some cs0 ∧
      cs0.length ≤ 12 ∧
      cs.length = cs0.length + (cornerAdds selfBody incBody).length) ∧
    (cornerAdds selfBody incBody).length ≤ 4 ∧
    cs.length ≤ 16 ∧
    (satFiltered (mkSATArgs selfBody incBody cs)).length ≤ 16 := by
  unfold rectCandidates at h
  cases hc : ClipTest (localBox selfBody.shape) (pInSelf selfBody incBody) with
  | none => rw [hc] at h; exact absurd h (by simp)
  | some cs0 =>
    rw [hc] at h
    have hcs : cs = cs0 ++ cornerAdds selfBody incBody :=
      (Option.some.inj h).symm
    have h12 := ClipTest_length_le _ _ _ hc
    have h4 := cornerAdds_le selfBody incBody
    have hlen : cs.length = cs0.length + (cornerAdds selfBody incBody).length := by
      rw [hcs, List.length_append]
    have h16 : cs.length ≤ 16 := by omega
    refine ⟨⟨cs0, rfl, h12, hlen⟩, h4, h16, ?_⟩
    have hflt := satFiltered_le (mkSATArgs selfBody incBody cs)
    have hargs : (mkSATArgs selfBody incBody cs).contacts = cs := rfl
    rw [hargs] at hflt
    omega

/-- Witness for C8 at the concrete overlapping pair. -/
theorem C8_buffer_bound_witness :
    (cornerAdds bodyA7 bodyB7).length ≤ 4 ∧
    cs7.length ≤ 16 ∧
    (satFiltered (mkSATArgs bodyA7 bodyB7 cs7)).length ≤ 16 :=
  (C8_buffer_bound bodyA7 bodyB7 cs7 rectCandidates_A7B7).2
